import Mathlib

/-!
Verification of claims about `ai-edge-torch` sources.

We shallowly embed the Python sources:
  * `ai_edge_torch/odml_torch/experimental/torch_tfl/_ops.py`
    (tfl custom ops and their fake implementations);
  * `ai_edge_torch/generative/examples/hammer/hammer.py` (model configs);
  * the reauthoring verification scripts for OpenELM-3B and Phi-4;
  * the `BuildAtenCompositePass` behaviour (its implementation is not in
    this source snapshot; we model it from the specification and its
    in-tree tests, see the docstrings marked `Modelled from the spec:`).

Tensors are modelled as a dtype, a shape, and row-major flat data.
Python `assert` failures and `raise ValueError` are modelled as
`Except.error`.
-/

/-- Torch dtypes that appear in the embedded code. -/
inductive DType where
  | float32
  | int32
  | int64
  | boolean
  deriving DecidableEq, Repr

/-- A torch tensor: dtype, shape, and row-major flattened data.
Element values are modelled as integers (values only matter for the
slicing / matmul claims, where exact arithmetic is not involved). -/
structure Tensor where
  dtype : DType
  shape : List Nat
  data : List Int
  deriving DecidableEq, Repr

/-- Field access `t.ndim`: the number of dimensions, `len(t.shape)` in Python. -/
def Tensor.ndim (t : Tensor) : Nat := t.shape.length

/-- Number of elements of a shape (`torch.Size(shape).numel()`). -/
def listProd (s : List Nat) : Nat := s.foldr (· * ·) 1

/-- Row-major flat offset of a multi-index `idx` into a tensor of shape
`s` (the layout torch uses for contiguous tensors). -/
def flatIndex : List Nat → List Nat → Nat
  | _, [] => 0
  | [], _ :: _ => 0
  | _ :: ds, i :: is => i * listProd ds + flatIndex ds is

/-- The element of `t` at multi-index `idx` (0 when out of range). -/
def Tensor.at (t : Tensor) (idx : List Nat) : Int :=
  t.data.getD (flatIndex t.shape idx) 0

/-- All multi-indices of a shape, in row-major order: the order in which
a contiguous torch tensor stores its elements. -/
def allIdx : List Nat → List (List Nat)
  | [] => [[]]
  | d :: ds => (List.range d).flatMap fun i => (allIdx ds).map (i :: ·)

theorem sum_map_const_range (d c : Nat) :
    ((List.range d).map (fun _ => c)).sum = d * c := by
  induction d with
  | zero => simp
  | succ n ih =>
    rw [List.range_succ]
    simp [ih, Nat.succ_mul]

theorem length_allIdx (s : List Nat) : (allIdx s).length = listProd s := by
  induction s with
  | nil => rfl
  | cons d ds ih =>
    simp only [allIdx, List.length_flatMap, Function.comp_def,
      List.length_map, ih]
    rw [sum_map_const_range]
    rfl

theorem flatIndex_lt (s idx : List Nat) (hlen : idx.length = s.length)
    (hb : ∀ k, k < s.length → idx.getD k 0 < s.getD k 0) :
    flatIndex s idx < listProd s := by
  induction s generalizing idx with
  | nil =>
    cases idx with
    | nil => simp [flatIndex, listProd]
    | cons i is => simp at hlen
  | cons d ds ih =>
    cases idx with
    | nil => simp at hlen
    | cons i is =>
      have hi : i < d := by
        have := hb 0 (by simp)
        simpa using this
      have his : flatIndex ds is < listProd ds := by
        apply ih
        · simpa using hlen
        · intro k hk
          have := hb (k + 1) (by simpa using Nat.succ_lt_succ hk)
          simpa using this
      have hsm : (i + 1) * listProd ds = i * listProd ds + listProd ds := by
        ring
      have : i * listProd ds + flatIndex ds is < (i + 1) * listProd ds := by
        omega
      calc flatIndex (d :: ds) (i :: is)
          = i * listProd ds + flatIndex ds is := rfl
        _ < (i + 1) * listProd ds := this
        _ ≤ d * listProd ds := Nat.mul_le_mul_right _ hi
        _ = listProd (d :: ds) := rfl

theorem get?_flatMap_uniform {α β : Type} (l : List α) (g : α → List β)
    (q : Nat) (hq : ∀ a ∈ l, (g a).length = q)
    (i r : Nat) (hi : i < l.length) (hr : r < q) :
    (l.flatMap g).get? (i * q + r) = (g (l.get ⟨i, hi⟩)).get? r := by
  induction l generalizing i with
  | nil => simp at hi
  | cons a l ih =>
    cases i with
    | zero =>
      have hlen : (g a).length = q := hq a (by simp)
      simp only [List.flatMap_cons, Nat.zero_mul, Nat.zero_add]
      rw [List.get?_eq_getElem?, List.getElem?_append_left (by omega)]
      simp
    | succ i =>
      have hlen : (g a).length = q := hq a (by simp)
      have hi' : i < l.length := by simpa using hi
      have harith : (i + 1) * q + r = (g a).length + (i * q + r) := by
        rw [hlen]; ring
      simp only [List.flatMap_cons, harith]
      rw [List.get?_eq_getElem?, List.getElem?_append_right (by omega)]
      have hsub : (g a).length + (i * q + r) - (g a).length = i * q + r := by
        omega
      rw [hsub]
      have := ih (fun b hb => hq b (by simp [hb])) i hi'
      rw [List.get?_eq_getElem?] at this
      simpa using this

/-- The element at row-major position `flatIndex s idx` of `allIdx s` is
`idx` itself, whenever `idx` is in the bounds of `s`. -/
theorem get?_allIdx (s idx : List Nat) (hlen : idx.length = s.length)
    (hb : ∀ k, k < s.length → idx.getD k 0 < s.getD k 0) :
    (allIdx s).get? (flatIndex s idx) = some idx := by
  induction s generalizing idx with
  | nil =>
    cases idx with
    | nil => rfl
    | cons i is => simp at hlen
  | cons d ds ih =>
    cases idx with
    | nil => simp at hlen
    | cons i is =>
      have hi : i < d := by
        have := hb 0 (by simp)
        simpa using this
      have hlen' : is.length = ds.length := by simpa using hlen
      have hb' : ∀ k, k < ds.length → is.getD k 0 < ds.getD k 0 := by
        intro k hk
        have := hb (k + 1) (by simpa using Nat.succ_lt_succ hk)
        simpa using this
      have hfi : flatIndex ds is < (allIdx ds).length := by
        rw [length_allIdx]; exact flatIndex_lt ds is hlen' hb'
      have huni : ∀ a ∈ List.range d,
          (((allIdx ds).map (a :: ·)).length) = (allIdx ds).length := by
        intro a _; simp
      have hid : i < (List.range d).length := by simpa using hi
      have := get?_flatMap_uniform (List.range d)
        (fun a => (allIdx ds).map (a :: ·)) (allIdx ds).length huni
        i (flatIndex ds is) hid hfi
      simp only [allIdx, flatIndex]
      rw [length_allIdx] at this
      rw [this]
      have hgetr : (List.range d).get ⟨i, hid⟩ = i := by
        simp
      rw [hgetr, List.get?_map, ih is hlen' hb']
      rfl

/-! Embedding of `torch_tfl/_ops.py`. -/

/-- Swap the last two entries of a list; identity on shorter lists.
Used to model `torch.transpose(t, -1, -2)` on shapes and indices. -/
def swapLast2 {α : Type} (l : List α) : List α :=
  l.take (l.length - 2) ++ (l.drop (l.length - 2)).reverse

/-- Torch `transpose(t, -1, -2)`: the tensor with the last two
dimensions exchanged, re-laid-out in row-major order. -/
def Tensor.transposeLast2 (t : Tensor) : Tensor :=
  let ns := swapLast2 t.shape
  { dtype := t.dtype, shape := ns,
    data := (allIdx ns).map fun j => t.at (swapLast2 j) }

/-- Function `tfl_batch_matmul` from `_ops.py`: raises `ValueError` when either
input has fewer than 2 dimensions, otherwise transposes the last two
dimensions of `x` (resp. `y`) when `adj_x` (resp. `adj_y`) is set and
applies `torch.matmul`. `torch.matmul` is framework code, taken here as
an arbitrary function `matmul`. -/
def tfl_batch_matmul (matmul : Tensor → Tensor → Tensor) (x y : Tensor)
    (adj_x : Bool := false) (adj_y : Bool := false) : Except String Tensor :=
  if x.ndim < 2 ∨ y.ndim < 2 then
    Except.error "Input tensors must have at least 2 dimensions."
  else
    let x := if adj_x then x.transposeLast2 else x
    let y := if adj_y then y.transposeLast2 else y
    Except.ok (matmul x y)

/-- Function `tfl_reshape` from `_ops.py`: asserts the requested shape has as many
elements as the input, then returns a reshaped copy (`view` + `clone`):
same dtype, same row-major data, new shape. -/
def tfl_reshape (input : Tensor) (shape : List Nat) : Except String Tensor :=
  if listProd shape = listProd input.shape then
    Except.ok { dtype := input.dtype, shape := shape, data := input.data }
  else
    Except.error "AssertionError"

/-- One dimension of a traced ("fake") tensor: either a concrete size or
a dynamic size freshly created by `ctx.new_dynamic_size()`, identified
by the counter value at creation time. -/
inductive Dim where
  | concrete (n : Int)
  | dynamic (id : Nat)
  deriving DecidableEq, Repr

/-- A fake tensor as produced by `torch.empty` / `new_empty` in a fake
implementation: dtype and (possibly dynamic) shape, no data. -/
structure FakeTensor where
  dtype : DType
  shape : List Dim
  deriving DecidableEq, Repr

/-- Function `tfl_reshape_fake` from `_ops.py`:
`torch.empty(shape, dtype=input.dtype)`. -/
def tfl_reshape_fake (input : Tensor) (shape : List Nat) : FakeTensor :=
  { dtype := input.dtype, shape := shape.map (fun n => Dim.concrete n) }

/-- Python `str.split(",")` on character lists. -/
def splitOnComma : List Char → List (List Char)
  | [] => [[]]
  | c :: rest =>
    if c = ',' then [] :: splitOnComma rest
    else
      match splitOnComma rest with
      | t :: ts => (c :: t) :: ts
      | [] => [[c]]

/-- Python `",".join(...)` on character lists. -/
def joinComma : List (List Char) → List Char
  | [] => []
  | [t] => t
  | t :: rest => t ++ ',' :: joinComma rest

/-- Whitespace as stripped by Python `int()`. -/
def isPyWS (c : Char) : Bool :=
  c = ' ' || c = '\t' || c = '\n' || c = '\r'

/-- Strip leading and trailing whitespace. -/
def stripWS (l : List Char) : List Char :=
  ((l.dropWhile isPyWS).reverse.dropWhile isPyWS).reverse

/-- Tail of a Python decimal integer literal: digits with optional
single underscores between digits. -/
def digitTail : List Char → Bool
  | [] => true
  | '_' :: c :: rest => c.isDigit && digitTail rest
  | c :: rest => c.isDigit && digitTail rest

/-- A nonempty Python decimal digit run (underscore separators
allowed between digits). -/
def digitRun : List Char → Bool
  | [] => false
  | c :: rest => c.isDigit && digitTail rest

/-- Numeric value of a digit run, ignoring underscores. -/
def digitsVal (l : List Char) : Nat :=
  (l.filter (fun c => c ≠ '_')).foldl
    (fun a c => a * 10 + (c.toNat - ('0').toNat)) 0

/-- Python `int(s)` on a decimal string: optional surrounding
whitespace, optional sign, then a digit run. `none` models the
`ValueError` raised on anything else. -/
def pyInt (l : List Char) : Option Int :=
  let t := stripWS l
  match t with
  | '+' :: rest => if digitRun rest then some (digitsVal rest) else none
  | '-' :: rest => if digitRun rest then some (-(digitsVal rest : Int)) else none
  | _ => if digitRun t then some (digitsVal t) else none

/-- Predicate for `re.match(r"\d+", sym)`: succeeds iff the token starts with a digit
(ASCII digits; the sources only produce ASCII shape strings). -/
def reMatchDigits : List Char → Bool
  | [] => false
  | c :: _ => c.isDigit

/-- The loop body of `tfl_slice_tensor_fake`: a token matching
`re.match(r"\d+", ·)` is passed to `int()` (whose `ValueError` is an
error result); any other token becomes `ctx.new_dynamic_size()`,
modelled by a counter supplying fresh ids. -/
def parseShapeTokens : List (List Char) → Nat → Except String (List Dim)
  | [], _ => Except.ok []
  | sym :: rest, ctr =>
    if reMatchDigits sym then
      match pyInt sym with
      | some n => (parseShapeTokens rest ctr).map (fun ds => Dim.concrete n :: ds)
      | none => Except.error "ValueError: invalid literal for int() with base 10"
    else
      (parseShapeTokens rest (ctr + 1)).map (fun ds => Dim.dynamic ctr :: ds)

/-- Token list of `tfl_slice_tensor_fake`: when the `shape` keyword
string is empty it is replaced by `",".join(["?"] * input.ndim)`; the
string is then split on commas. -/
def fakeShapeTokens (input : Tensor) (shape : String) : List (List Char) :=
  splitOnComma
    (if shape.toList = [] then joinComma (List.replicate input.ndim ['?'])
     else shape.toList)

/-- Function `tfl_slice_tensor_fake` from `_ops.py`: each shape token
contributes one output dimension, and the result has the input's dtype
(`input.new_empty(shape, dtype=input.dtype)`). The `begin` and `size`
arguments are unused by the fake. -/
def tfl_slice_tensor_fake (input begin_ size : Tensor)
    (shape : String := "") : Except String FakeTensor :=
  (parseShapeTokens (fakeShapeTokens input shape) 0).map fun dims =>
    { dtype := input.dtype, shape := dims }

/-- The clamped output extent of `input[slice(b, b + l)]` on a dimension
of size `d`, following Python slice semantics for nonnegative bounds. -/
def sliceShape : List Nat → List Nat → List Nat → List Nat
  | d :: ds, b :: bs, l :: ls => (min (b + l) d - b) :: sliceShape ds bs ls
  | _, _, _ => []

/-- Function `tfl_slice` from `_ops.py`: asserts
`len(begin) == len(size) == input.ndim`, then returns a fresh copy of
`input[tuple(slice(i, i + l) for i, l in zip(begin, size))]`: row-major
gather of the elements at multi-index `begin + j`. -/
def tfl_slice (input : Tensor) (begin_ size : List Nat) :
    Except String Tensor :=
  if begin_.length = size.length ∧ size.length = input.ndim then
    let outShape := sliceShape input.shape begin_ size
    let outData := (allIdx outShape).map
      (fun j => input.at (List.zipWith (· + ·) begin_ j))
    Except.ok { dtype := input.dtype, shape := outShape, data := outData }
  else
    Except.error "AssertionError"

/-! Embedding of `generative/examples/hammer/hammer.py`.

Modelled from the spec: the `ai_edge_torch.generative.layers.model_config`
dataclasses (`ModelConfig`, `TransformerBlockConfig`, `AttentionConfig`,
`FeedForwardConfig`, `NormalizationConfig`, activation / feed-forward /
normalization type enums) are not in this source snapshot; they are
"model-config dataclasses for transformer architectures" per the spec and
are modelled as plain records holding exactly the fields `hammer.py`
sets. Fractional numeric literals are modelled as rationals. -/

inductive ActivationType where
  | SILU
  deriving DecidableEq, Repr

inductive FeedForwardType where
  | GATED
  deriving DecidableEq, Repr

inductive NormalizationType where
  | RMS_NORM
  deriving DecidableEq, Repr

structure ActivationConfig where
  type : ActivationType
  deriving DecidableEq, Repr

structure AttentionConfig where
  num_heads : Nat
  head_dim : Nat
  num_query_groups : Nat
  rotary_base : Nat
  rotary_percentage : ℚ
  qkv_use_bias : Bool
  deriving DecidableEq, Repr

structure FeedForwardConfig where
  type : FeedForwardType
  activation : ActivationConfig
  intermediate_size : Nat
  deriving DecidableEq, Repr

structure NormalizationConfig where
  type : NormalizationType
  epsilon : ℚ
  enable_hlfb : Bool
  deriving DecidableEq, Repr

structure TransformerBlockConfig where
  attn_config : AttentionConfig
  ff_config : FeedForwardConfig
  pre_attention_norm_config : NormalizationConfig
  post_attention_norm_config : NormalizationConfig
  deriving DecidableEq, Repr

structure ModelConfig where
  vocab_size : Nat
  num_layers : Nat
  max_seq_len : Nat
  embedding_dim : Nat
  kv_cache_max_len : Nat
  block_configs : TransformerBlockConfig
  final_norm_config : NormalizationConfig
  enable_hlfb : Bool
  deriving DecidableEq, Repr

/-- Method `config.block_config(0)`: Hammer passes a single block config, so
this is just `block_configs`. -/
def ModelConfig.block_config (c : ModelConfig) : TransformerBlockConfig :=
  c.block_configs

/-- Function `get_1_5b_model_config` from `hammer.py`. -/
def get_1_5b_model_config (kv_cache_max_len : Nat := 1024) : ModelConfig :=
  let attn_config : AttentionConfig :=
    { num_heads := 12, head_dim := 128, num_query_groups := 2,
      rotary_base := 1000000, rotary_percentage := 1,
      qkv_use_bias := true }
  let ff_config : FeedForwardConfig :=
    { type := FeedForwardType.GATED,
      activation := { type := ActivationType.SILU },
      intermediate_size := 8960 }
  let norm_config : NormalizationConfig :=
    { type := NormalizationType.RMS_NORM, epsilon := 1 / 1000000,
      enable_hlfb := true }
  let block_config : TransformerBlockConfig :=
    { attn_config := attn_config, ff_config := ff_config,
      pre_attention_norm_config := norm_config,
      post_attention_norm_config := norm_config }
  { vocab_size := 151665, num_layers := 28, max_seq_len := 32768,
    embedding_dim := 1536, kv_cache_max_len := kv_cache_max_len,
    block_configs := block_config, final_norm_config := norm_config,
    enable_hlfb := true }

/-- Function `get_0_5b_model_config` from `hammer.py`: starts from the 1.5B
config and overwrites `num_heads`, `head_dim`, `intermediate_size`,
`num_layers` and `embedding_dim` in place. -/
def get_0_5b_model_config (kv_cache_max_len : Nat := 1024) : ModelConfig :=
  let config := get_1_5b_model_config kv_cache_max_len
  let block_config := config.block_config
  let block_config :=
    { block_config with
      attn_config :=
        { block_config.attn_config with num_heads := 14, head_dim := 64 },
      ff_config :=
        { block_config.ff_config with intermediate_size := 4864 } }
  { config with
    block_configs := block_config, num_layers := 24, embedding_dim := 896 }

/-! Embedding of the reauthoring verification scripts
(`generative/examples/openelm/verify.py` and
`generative/examples/phi/verify_phi4.py`) -/

/-- A causal language model, reduced to its next-token function over
token-id sequences. -/
def LM : Type := List Nat → Nat

/-- Greedy generation: starting from `prompt`, append `n` tokens, each
produced by the model from the tokens so far. -/
def generate (model : LM) (prompt : List Nat) : Nat → List Nat
  | 0 => []
  | n + 1 =>
    let t := model prompt
    t :: generate model (prompt ++ [t]) n

/-- Modelled from the spec: `verifier.verify_reauthored_model` (module
`ai_edge_torch.generative.utilities.verifier`, not in this source
snapshot) "compare[s] a reimplemented model's numerical outputs against
a reference implementation": for each prompt it generates at most
`max_new_tokens` tokens with the original and the reauthored model and
checks that the outputs agree. -/
def verify_reauthored_model (original_model reauthored_model : LM)
    (tokenizer : String → List Nat) (generate_prompts : List String)
    (max_new_tokens : Nat) : Bool :=
  generate_prompts.all fun p =>
    generate original_model (tokenizer p) max_new_tokens
      = generate reauthored_model (tokenizer p) max_new_tokens

/-- The external services a verification script touches: the model hub
(download / cache lookup), the filesystem path algebra, and the
repository's model builder. -/
structure HubEnv where
  from_pretrained : String → LM
  cached_file : String → String → String
  parent : String → String
  build_model : String → LM
  load_tokenizer : String → (String → List Nat)

/-- Constant `transformers.utils.CONFIG_NAME`. -/
def CONFIG_NAME : String := "config.json"

/-- What a verification script's `main` did: where each model came from
and the outcome of the parity check. -/
structure VerifyRun where
  original_source : String
  reauthored_source : String
  tokenizer_source : String
  parity_ok : Bool
  deriving Repr

/-- Function `main` of `openelm/verify.py`: loads the original OpenELM-3B model
from the hub, locates the hub cache directory through the cached config
file, builds the reauthored model from that directory, and runs the
parity check with the flag values (`max_new_tokens` defaults to 30). -/
def openelm_verify_main (env : HubEnv) (prompts : List String)
    (max_new_tokens : Nat := 30) : VerifyRun :=
  let checkpoint := "apple/OpenELM-3B"
  let original_model := env.from_pretrained checkpoint
  let cached_config_file := env.cached_file checkpoint CONFIG_NAME
  let reauthored_checkpoint := env.parent cached_config_file
  let reauthored_model := env.build_model reauthored_checkpoint
  let tokenizer_checkpoint := "meta-llama/Llama-2-7b-hf"
  let tokenizer := env.load_tokenizer tokenizer_checkpoint
  { original_source := checkpoint,
    reauthored_source := reauthored_checkpoint,
    tokenizer_source := tokenizer_checkpoint,
    parity_ok := verify_reauthored_model original_model reauthored_model
      tokenizer prompts max_new_tokens }

/-- Function `main` of `phi/verify_phi4.py`: same structure for
`microsoft/Phi-4-mini-instruct`, with the tokenizer loaded from the same
checkpoint. -/
def phi4_verify_main (env : HubEnv) (prompts : List String)
    (max_new_tokens : Nat := 30) : VerifyRun :=
  let checkpoint := "microsoft/Phi-4-mini-instruct"
  let original_model := env.from_pretrained checkpoint
  let cached_config_file := env.cached_file checkpoint CONFIG_NAME
  let reauthored_checkpoint := env.parent cached_config_file
  let reauthored_model := env.build_model reauthored_checkpoint
  let tokenizer := env.load_tokenizer checkpoint
  { original_source := checkpoint,
    reauthored_source := reauthored_checkpoint,
    tokenizer_source := checkpoint,
    parity_ok := verify_reauthored_model original_model reauthored_model
      tokenizer prompts max_new_tokens }

/-! Model of `BuildAtenCompositePass`.

Modelled from the spec: the pass implementation
(`_convert/fx_passes/build_aten_composite_pass.py`) is not in this
source snapshot; only its test
(`test/test_build_aten_composite_pass.py`) is. Per the spec, the pass is
"a catalog of one-to-one operator-pattern-to-composite-name mappings and
numeric attribute extraction", and each composite is "a named, opaque
operation boundary" whose operands and results are delimited by
`mark_tensor` custom calls. The catalog below is taken from the spec and
the expected strings in the in-tree test. -/

/-- The source operator patterns the pass rewrites. GELU is a single
pattern here: the exact and tanh-approximate variants map to the same
composite name (the approximation only affects attributes). -/
inductive AtenPattern where
  | hardswish
  | avg_pool2d
  | gelu
  | embedding_lookup
  | upsample_bilinear2d
  | interpolate_nearest
  deriving DecidableEq, Repr, Fintype

/-- The composite name the pass designates for each pattern. -/
def compositeName : AtenPattern → String
  | AtenPattern.hardswish => "aten.hardswish.default"
  | AtenPattern.avg_pool2d => "aten.avg_pool2d.default"
  | AtenPattern.gelu => "aten.gelu.default"
  | AtenPattern.embedding_lookup => "odml.embedding_lookup"
  | AtenPattern.upsample_bilinear2d => "odml.upsample_bilinear2d"
  | AtenPattern.interpolate_nearest => "tfl.resize_nearest_neighbor"

/-- Number of operands each composite takes: embedding lookup consumes
the indices and the table, every other pattern one input tensor. -/
def numOperands : AtenPattern → Nat
  | AtenPattern.embedding_lookup => 2
  | _ => 1

/-- Every composite in the catalog produces a single result tensor. -/
def numResults : AtenPattern → Nat := fun _ => 1

/-- Ops of the exported StableHLO that the in-tree test counts. -/
inductive HloOp where
  | composite (name : String)
  | mark_tensor
  deriving DecidableEq, Repr

/-- The ops a single matched pattern occurrence is rewritten into: one
`mark_tensor` custom call per composite operand, the composite op
itself, and one `mark_tensor` custom call per composite result. -/
def rewritePattern (p : AtenPattern) : List HloOp :=
  List.replicate (numOperands p) HloOp.mark_tensor
    ++ [HloOp.composite (compositeName p)]
    ++ List.replicate (numResults p) HloOp.mark_tensor

/-- Attribute values appearing in `composite_attributes`. -/
inductive AttrVal where
  | b (v : Bool)
  | ns (v : List Nat)
  deriving DecidableEq, Repr

/-- The arguments of an `upsample` / `interpolate` call the pass reads:
the spatial (H, W) extent of the NCHW input, and the optional `size`,
`scale_factor` and `align_corners` call arguments. -/
structure InterpolateArgs where
  input_spatial : List Nat
  size : Option (List Nat)
  scale_factor : Option ℚ
  align_corners : Option Bool

/-- The output size the composite records: the explicit `size` argument
when given, otherwise each spatial dimension scaled by `scale_factor`
(floored, as torch computes output extents). -/
def interpolateOutputSize (args : InterpolateArgs) : List Nat :=
  match args.size with
  | some s => s
  | none =>
    args.input_spatial.map
      (fun d : Nat => (⌊(args.scale_factor.getD 1) * (d : ℚ)⌋).toNat)

/-- Attributes (`composite_attributes`) of an `odml.upsample_bilinear2d` composite. -/
def upsampleBilinear2dAttrs (args : InterpolateArgs) :
    List (String × AttrVal) :=
  [("size", AttrVal.ns (interpolateOutputSize args)),
   ("align_corners", AttrVal.b (args.align_corners.getD false)),
   ("is_nchw_op", AttrVal.b true)]

/-- Attributes (`composite_attributes`) of a `tfl.resize_nearest_neighbor`
composite. -/
def resizeNearestNeighborAttrs (args : InterpolateArgs) :
    List (String × AttrVal) :=
  [("size", AttrVal.ns (interpolateOutputSize args)),
   ("is_nchw_op", AttrVal.b true)]

/-! Shared helper: reading one element of a tensor built by mapping a
function over all row-major multi-indices of its shape. -/

theorem at_mk_map (dt : DType) (s : List Nat) (f : List Nat → Int)
    (j : List Nat) (hlen : j.length = s.length)
    (hb : ∀ k, k < s.length → j.getD k 0 < s.getD k 0) :
    Tensor.at ⟨dt, s, (allIdx s).map f⟩ j = f j := by
  show ((allIdx s).map f).getD (flatIndex s j) 0 = f j
  have h := get?_allIdx s j hlen hb
  rw [List.get?_eq_getElem?] at h
  rw [List.getD_eq_getElem?_getD, List.getElem?_map, h]
  rfl

/-! Claim theorems. -/

/-- C1: the operator-pattern-to-composite-name catalog of
`BuildAtenCompositePass` is one-to-one: hardswish, avg_pool2d, GELU
(exact or tanh-approximate), embedding lookup, bilinear
upsample/interpolate and nearest-neighbor interpolate map to their
designated composite names, each matched pattern is rewritten into
exactly one composite op carrying that name, and distinct patterns get
distinct names. -/
theorem C1_composite_name_catalog :
    compositeName AtenPattern.hardswish = "aten.hardswish.default"
    ∧ compositeName AtenPattern.avg_pool2d = "aten.avg_pool2d.default"
    ∧ compositeName AtenPattern.gelu = "aten.gelu.default"
    ∧ compositeName AtenPattern.embedding_lookup = "odml.embedding_lookup"
    ∧ compositeName AtenPattern.upsample_bilinear2d
        = "odml.upsample_bilinear2d"
    ∧ compositeName AtenPattern.interpolate_nearest
        = "tfl.resize_nearest_neighbor"
    ∧ (∀ p q : AtenPattern,
        ((rewritePattern p).count (HloOp.composite (compositeName q)))
          = if p = q then 1 else 0)
    ∧ Function.Injective compositeName := by
  refine ⟨rfl, rfl, rfl, rfl, rfl, rfl, ?_, ?_⟩
  · intro p q
    cases p <;> cases q <;> decide
  · decide

/-- Witness for C1: the injectivity part applied at a concrete pattern
pair. -/
theorem C1_composite_name_catalog_witness :
    AtenPattern.hardswish = AtenPattern.hardswish :=
  C1_composite_name_catalog.2.2.2.2.2.2.2 rfl

/-- C6: every composite inserted by the pass is delimited by one
`mark_tensor` custom call per operand and one per result, so a
single-input composite comes with exactly 2 `mark_tensor` calls and the
two-operand embedding-lookup composite with exactly 3. -/
theorem C6_mark_tensor_counts :
    (∀ p : AtenPattern, (rewritePattern p).count HloOp.mark_tensor
        = numOperands p + numResults p)
    ∧ (rewritePattern AtenPattern.hardswish).count HloOp.mark_tensor = 2
    ∧ (rewritePattern AtenPattern.gelu).count HloOp.mark_tensor = 2
    ∧ (rewritePattern AtenPattern.avg_pool2d).count HloOp.mark_tensor = 2
    ∧ (rewritePattern AtenPattern.upsample_bilinear2d).count
        HloOp.mark_tensor = 2
    ∧ (rewritePattern AtenPattern.interpolate_nearest).count
        HloOp.mark_tensor = 2
    ∧ (rewritePattern AtenPattern.embedding_lookup).count
        HloOp.mark_tensor = 3 := by
  refine ⟨?_, rfl, rfl, rfl, rfl, rfl, rfl⟩
  intro p
  cases p <;> rfl

/-- C8: `get_1_5b_model_config` returns the Hammer 2.1 1.5B config with
the documented field values, with `kv_cache_max_len` defaulting to
1024. -/
theorem C8_hammer_1_5b_config :
    ∀ k : Nat,
      (get_1_5b_model_config k).vocab_size = 151665
      ∧ (get_1_5b_model_config k).num_layers = 28
      ∧ (get_1_5b_model_config k).max_seq_len = 32768
      ∧ (get_1_5b_model_config k).embedding_dim = 1536
      ∧ (get_1_5b_model_config k).kv_cache_max_len = k
      ∧ (get_1_5b_model_config).kv_cache_max_len = 1024
      ∧ (get_1_5b_model_config k).block_configs.attn_config.num_heads = 12
      ∧ (get_1_5b_model_config k).block_configs.attn_config.head_dim = 128
      ∧ (get_1_5b_model_config k).block_configs.attn_config.num_query_groups
          = 2
      ∧ (get_1_5b_model_config k).block_configs.attn_config.rotary_base
          = 1000000
      ∧ (get_1_5b_model_config k).block_configs.attn_config.qkv_use_bias
          = true
      ∧ (get_1_5b_model_config k).block_configs.ff_config.type
          = FeedForwardType.GATED
      ∧ (get_1_5b_model_config k).block_configs.ff_config.activation.type
          = ActivationType.SILU
      ∧ (get_1_5b_model_config k).block_configs.ff_config.intermediate_size
          = 8960
      ∧ (get_1_5b_model_config k).block_configs.pre_attention_norm_config
          = ⟨NormalizationType.RMS_NORM, 1 / 1000000, true⟩
      ∧ (get_1_5b_model_config k).block_configs.post_attention_norm_config
          = ⟨NormalizationType.RMS_NORM, 1 / 1000000, true⟩
      ∧ (get_1_5b_model_config k).final_norm_config
          = ⟨NormalizationType.RMS_NORM, 1 / 1000000, true⟩ := by
  intro k
  refine ⟨rfl, rfl, rfl, rfl, rfl, rfl, rfl, rfl, rfl, rfl, rfl, rfl, rfl,
    rfl, rfl, rfl, rfl⟩

/-- Witness for C8 at a concrete `kv_cache_max_len`. -/
theorem C8_hammer_1_5b_config_witness :
    (get_1_5b_model_config 2048).vocab_size = 151665 :=
  (C8_hammer_1_5b_config 2048).1

/-- C9: for every `kv_cache_max_len`, the 0.5B Hammer config equals the
1.5B config with exactly `num_layers`, `embedding_dim`, the attention's
`num_heads` and `head_dim`, and the feed-forward `intermediate_size`
replaced; every other field is unchanged. -/
theorem C9_hammer_0_5b_config_delta :
    ∀ k : Nat,
      get_0_5b_model_config k
        = { get_1_5b_model_config k with
            num_layers := 24,
            embedding_dim := 896,
            block_configs := { (get_1_5b_model_config k).block_configs with
              attn_config :=
                { (get_1_5b_model_config k).block_configs.attn_config with
                  num_heads := 14, head_dim := 64 },
              ff_config :=
                { (get_1_5b_model_config k).block_configs.ff_config with
                  intermediate_size := 4864 } } }
      ∧ (get_0_5b_model_config k).num_layers = 24
      ∧ (get_0_5b_model_config k).embedding_dim = 896
      ∧ (get_0_5b_model_config k).block_configs.attn_config.num_heads = 14
      ∧ (get_0_5b_model_config k).block_configs.attn_config.head_dim = 64
      ∧ (get_0_5b_model_config k).block_configs.ff_config.intermediate_size
          = 4864
      ∧ (get_0_5b_model_config k).vocab_size
          = (get_1_5b_model_config k).vocab_size
      ∧ (get_0_5b_model_config k).max_seq_len
          = (get_1_5b_model_config k).max_seq_len
      ∧ (get_0_5b_model_config k).kv_cache_max_len
          = (get_1_5b_model_config k).kv_cache_max_len
      ∧ (get_0_5b_model_config k).block_configs.attn_config.num_query_groups
          = (get_1_5b_model_config k).block_configs.attn_config.num_query_groups
      ∧ (get_0_5b_model_config k).block_configs.attn_config.rotary_base
          = (get_1_5b_model_config k).block_configs.attn_config.rotary_base
      ∧ (get_0_5b_model_config k).block_configs.attn_config.rotary_percentage
          = (get_1_5b_model_config k).block_configs.attn_config.rotary_percentage
      ∧ (get_0_5b_model_config k).block_configs.attn_config.qkv_use_bias
          = (get_1_5b_model_config k).block_configs.attn_config.qkv_use_bias
      ∧ (get_0_5b_model_config k).block_configs.ff_config.type
          = (get_1_5b_model_config k).block_configs.ff_config.type
      ∧ (get_0_5b_model_config k).block_configs.ff_config.activation
          = (get_1_5b_model_config k).block_configs.ff_config.activation
      ∧ (get_0_5b_model_config k).block_configs.pre_attention_norm_config
          = (get_1_5b_model_config k).block_configs.pre_attention_norm_config
      ∧ (get_0_5b_model_config k).block_configs.post_attention_norm_config
          = (get_1_5b_model_config k).block_configs.post_attention_norm_config
      ∧ (get_0_5b_model_config k).final_norm_config
          = (get_1_5b_model_config k).final_norm_config
      ∧ (get_0_5b_model_config k).enable_hlfb
          = (get_1_5b_model_config k).enable_hlfb := by
  intro k
  refine ⟨rfl, rfl, rfl, rfl, rfl, rfl, rfl, rfl, rfl, rfl, rfl, rfl, rfl,
    rfl, rfl, rfl, rfl, rfl, rfl⟩

/-- Witness for C9 at a concrete `kv_cache_max_len`. -/
theorem C9_hammer_0_5b_config_delta_witness :
    (get_0_5b_model_config 1024).num_layers = 24 :=
  (C9_hammer_0_5b_config_delta 1024).2.1

/-- C2: for a bilinear upsample/interpolate composite, `align_corners`
is the call argument (false when omitted), `size` is the explicit `size`
argument when given and otherwise the scaled spatial extent, and
`is_nchw_op` is true; a nearest-mode composite carries only `size` and
`is_nchw_op`, with no `align_corners` attribute. -/
theorem C2_interpolate_attrs :
    ∀ (sp : List Nat) (sz : Option (List Nat)) (sf : Option ℚ)
      (ac : Option Bool),
      ("align_corners", AttrVal.b (ac.getD false))
          ∈ upsampleBilinear2dAttrs ⟨sp, sz, sf, ac⟩
      ∧ (ac = none → ("align_corners", AttrVal.b false)
          ∈ upsampleBilinear2dAttrs ⟨sp, sz, sf, ac⟩)
      ∧ (∀ s, sz = some s → ("size", AttrVal.ns s)
          ∈ upsampleBilinear2dAttrs ⟨sp, sz, sf, ac⟩)
      ∧ (∀ q, sz = none → sf = some q →
          ("size", AttrVal.ns (sp.map (fun d : Nat => (⌊q * (d : ℚ)⌋).toNat)))
            ∈ upsampleBilinear2dAttrs ⟨sp, sz, sf, ac⟩)
      ∧ ("is_nchw_op", AttrVal.b true)
          ∈ upsampleBilinear2dAttrs ⟨sp, sz, sf, ac⟩
      ∧ (∀ s, sz = some s → ("size", AttrVal.ns s)
          ∈ resizeNearestNeighborAttrs ⟨sp, sz, sf, ac⟩)
      ∧ (∀ q, sz = none → sf = some q →
          ("size", AttrVal.ns (sp.map (fun d : Nat => (⌊q * (d : ℚ)⌋).toNat)))
            ∈ resizeNearestNeighborAttrs ⟨sp, sz, sf, ac⟩)
      ∧ ("is_nchw_op", AttrVal.b true)
          ∈ resizeNearestNeighborAttrs ⟨sp, sz, sf, ac⟩
      ∧ (∀ v, ("align_corners", v) ∉ resizeNearestNeighborAttrs ⟨sp, sz, sf, ac⟩)
      ∧ (resizeNearestNeighborAttrs ⟨sp, sz, sf, ac⟩).map Prod.fst
          = ["size", "is_nchw_op"] := by
  intro sp sz sf ac
  refine ⟨?_, ?_, ?_, ?_, ?_, ?_, ?_, ?_, ?_, ?_⟩
  · simp [upsampleBilinear2dAttrs]
  · intro h; subst h; simp [upsampleBilinear2dAttrs]
  · intro s h; subst h
    simp [upsampleBilinear2dAttrs, interpolateOutputSize]
  · intro q h1 h2; subst h1; subst h2
    simp [upsampleBilinear2dAttrs, interpolateOutputSize]
  · simp [upsampleBilinear2dAttrs]
  · intro s h; subst h
    simp [resizeNearestNeighborAttrs, interpolateOutputSize]
  · intro q h1 h2; subst h1; subst h2
    simp [resizeNearestNeighborAttrs, interpolateOutputSize]
  · simp [resizeNearestNeighborAttrs]
  · intro v
    simp [resizeNearestNeighborAttrs]
  · rfl

/-- Witness for C2 on the in-tree test case: `scale_factor=3.0` on a
10x10 spatial input yields `size = [30, 30]`, `align_corners = false`,
`is_nchw_op = true`. -/
theorem C2_interpolate_attrs_witness :
    ("size", AttrVal.ns [30, 30])
        ∈ upsampleBilinear2dAttrs ⟨[10, 10], none, some 3, none⟩
    ∧ ("align_corners", AttrVal.b false)
        ∈ upsampleBilinear2dAttrs ⟨[10, 10], none, some 3, none⟩
    ∧ ("is_nchw_op", AttrVal.b true)
        ∈ upsampleBilinear2dAttrs ⟨[10, 10], none, some 3, none⟩ := by
  have h := C2_interpolate_attrs [10, 10] none (some 3) none
  have hsz := h.2.2.2.1 3 rfl rfl
  have hmap : [10, 10].map (fun d : Nat => (⌊(3 : ℚ) * (d : ℚ)⌋).toNat)
      = [30, 30] := by
    norm_num <;> decide
  rw [hmap] at hsz
  exact ⟨hsz, h.2.1 rfl, h.2.2.2.2.1⟩

theorem length_swapLast2 {α : Type} (l : List α) :
    (swapLast2 l).length = l.length := by
  simp [swapLast2]

/-- C5: `tfl_batch_matmul` errors exactly when an input has fewer than
2 dimensions (with the `ValueError` message), and otherwise returns
`torch.matmul` of the inputs with the last two dimensions of `x`
swapped exactly when `adj_x` and of `y` exactly when `adj_y`; the
swap really exchanges the last two dimensions, elementwise. -/
theorem C5_tfl_batch_matmul_spec :
    ∀ (matmul : Tensor → Tensor → Tensor) (x y : Tensor)
      (adj_x adj_y : Bool),
      (x.ndim < 2 ∨ y.ndim < 2 →
        tfl_batch_matmul matmul x y adj_x adj_y
          = Except.error "Input tensors must have at least 2 dimensions.")
      ∧ (2 ≤ x.ndim → 2 ≤ y.ndim →
        tfl_batch_matmul matmul x y adj_x adj_y
          = Except.ok (matmul (if adj_x then x.transposeLast2 else x)
                              (if adj_y then y.transposeLast2 else y)))
      ∧ (∀ t : Tensor, (t.transposeLast2).shape = swapLast2 t.shape)
      ∧ (∀ t : Tensor, (t.transposeLast2).dtype = t.dtype)
      ∧ (∀ (t : Tensor) (j : List Nat), j.length = t.ndim →
          (∀ k, k < t.ndim → j.getD k 0 < (swapLast2 t.shape).getD k 0) →
          (t.transposeLast2).at j = t.at (swapLast2 j)) := by
  intro matmul x y adj_x adj_y
  refine ⟨?_, ?_, fun t => rfl, fun t => rfl, ?_⟩
  · intro h
    rw [tfl_batch_matmul, if_pos h]
  · intro hx hy
    have h : ¬(x.ndim < 2 ∨ y.ndim < 2) := by omega
    rw [tfl_batch_matmul, if_neg h]
  · intro t j hlen hb
    have hlen' : j.length = (swapLast2 t.shape).length := by
      rw [length_swapLast2]; exact hlen
    have hb' : ∀ k, k < (swapLast2 t.shape).length →
        j.getD k 0 < (swapLast2 t.shape).getD k 0 := by
      intro k hk
      exact hb k (by rw [length_swapLast2] at hk; exact hk)
    exact at_mk_map t.dtype (swapLast2 t.shape)
      (fun i => t.at (swapLast2 i)) j hlen' hb'

/-- Witness for C5: both branches at concrete tensors. -/
theorem C5_tfl_batch_matmul_spec_witness :
    tfl_batch_matmul (fun a _ => a) ⟨DType.float32, [2], [1, 2]⟩
        ⟨DType.float32, [2, 2], [1, 2, 3, 4]⟩ false false
      = Except.error "Input tensors must have at least 2 dimensions."
    ∧ tfl_batch_matmul (fun a _ => a) ⟨DType.float32, [2, 2], [1, 2, 3, 4]⟩
        ⟨DType.float32, [2, 2], [5, 6, 7, 8]⟩ true false
      = Except.ok ((⟨DType.float32, [2, 2], [1, 2, 3, 4]⟩ : Tensor).transposeLast2)
    ∧ ((⟨DType.float32, [2, 3], [1, 2, 3, 4, 5, 6]⟩ : Tensor).transposeLast2).at
        [2, 0]
      = (⟨DType.float32, [2, 3], [1, 2, 3, 4, 5, 6]⟩ : Tensor).at [0, 2] := by
  have h1 := (C5_tfl_batch_matmul_spec (fun a _ => a)
    ⟨DType.float32, [2], [1, 2]⟩ ⟨DType.float32, [2, 2], [1, 2, 3, 4]⟩
    false false).1 (by decide)
  have h2 := (C5_tfl_batch_matmul_spec (fun a _ => a)
    ⟨DType.float32, [2, 2], [1, 2, 3, 4]⟩ ⟨DType.float32, [2, 2], [5, 6, 7, 8]⟩
    true false).2.1 (by decide) (by decide)
  have h3 := (C5_tfl_batch_matmul_spec (fun a _ => a)
    ⟨DType.float32, [2, 2], [1, 2, 3, 4]⟩ ⟨DType.float32, [2, 2], [5, 6, 7, 8]⟩
    true false).2.2.2.2 ⟨DType.float32, [2, 3], [1, 2, 3, 4, 5, 6]⟩ [2, 0]
    (by decide) (by decide)
  simp only [if_pos] at h2
  refine ⟨h1, h2, h3.trans (by rfl)⟩

theorem generate_length (model : LM) (prompt : List Nat) (n : Nat) :
    (generate model prompt n).length = n := by
  induction n generalizing prompt with
  | zero => rfl
  | succ m ih => simp [generate, ih]

/-- C3: both reauthoring verification scripts load the original model
from a fixed hub checkpoint, build the reauthored model from the parent
directory of that same checkpoint's cached config file, and check the
two models' generated outputs for equality on every prompt, generating
at most `max_new_tokens` tokens (the flag defaults to 30). -/
theorem C3_reauthoring_verification_scripts :
    ∀ (env : HubEnv) (prompts : List String) (m : Nat),
      (openelm_verify_main env prompts m).original_source
          = "apple/OpenELM-3B"
      ∧ (openelm_verify_main env prompts m).reauthored_source
          = env.parent (env.cached_file
              (openelm_verify_main env prompts m).original_source CONFIG_NAME)
      ∧ (phi4_verify_main env prompts m).original_source
          = "microsoft/Phi-4-mini-instruct"
      ∧ (phi4_verify_main env prompts m).reauthored_source
          = env.parent (env.cached_file
              (phi4_verify_main env prompts m).original_source CONFIG_NAME)
      ∧ ((openelm_verify_main env prompts m).parity_ok = true ↔
          ∀ p ∈ prompts,
            generate (env.from_pretrained "apple/OpenELM-3B")
                (env.load_tokenizer "meta-llama/Llama-2-7b-hf" p) m
              = generate
                  (env.build_model (env.parent
                    (env.cached_file "apple/OpenELM-3B" CONFIG_NAME)))
                  (env.load_tokenizer "meta-llama/Llama-2-7b-hf" p) m)
      ∧ ((phi4_verify_main env prompts m).parity_ok = true ↔
          ∀ p ∈ prompts,
            generate (env.from_pretrained "microsoft/Phi-4-mini-instruct")
                (env.load_tokenizer "microsoft/Phi-4-mini-instruct" p) m
              = generate
                  (env.build_model (env.parent
                    (env.cached_file "microsoft/Phi-4-mini-instruct"
                      CONFIG_NAME)))
                  (env.load_tokenizer "microsoft/Phi-4-mini-instruct" p) m)
      ∧ (∀ (model : LM) (prompt : List Nat),
          (generate model prompt m).length ≤ m)
      ∧ openelm_verify_main env prompts = openelm_verify_main env prompts 30
      ∧ phi4_verify_main env prompts = phi4_verify_main env prompts 30 := by
  intro env prompts m
  refine ⟨rfl, rfl, rfl, rfl, ?_, ?_, ?_, rfl, rfl⟩
  · show (verify_reauthored_model _ _ _ prompts m = true ↔ _)
    simp [verify_reauthored_model]
  · show (verify_reauthored_model _ _ _ prompts m = true ↔ _)
    simp [verify_reauthored_model]
  · intro model prompt
    exact (generate_length model prompt m).le

/-- Witness for C3 at a concrete environment and prompt list. -/
theorem C3_reauthoring_verification_scripts_witness :
    (openelm_verify_main
        ⟨fun _ _ => 0, fun a b => a ++ "/" ++ b, fun s => s ++ "/..",
         fun _ _ => 0, fun _ _ => []⟩ ["What is the meaning of life?"]
        30).original_source = "apple/OpenELM-3B" :=
  (C3_reauthoring_verification_scripts
    ⟨fun _ _ => 0, fun a b => a ++ "/" ++ b, fun s => s ++ "/..",
     fun _ _ => 0, fun _ _ => []⟩ ["What is the meaning of life?"] 30).1

theorem sliceShape_eq (dims b s : List Nat)
    (h1 : b.length = dims.length) (h2 : s.length = dims.length)
    (hb : ∀ k, k < dims.length → b.getD k 0 + s.getD k 0 ≤ dims.getD k 0) :
    sliceShape dims b s = s := by
  induction dims generalizing b s with
  | nil =>
    cases b with
    | nil =>
      cases s with
      | nil => rfl
      | cons x xs => simp at h2
    | cons x xs => simp at h1
  | cons d ds ih =>
    cases b with
    | nil => simp at h1
    | cons b0 bs =>
      cases s with
      | nil => simp at h2
      | cons s0 ss =>
        have hb0 : b0 + s0 ≤ d := by
          have := hb 0 (by simp)
          simpa using this
        have hmin : min (b0 + s0) d = b0 + s0 := Nat.min_eq_left hb0
        have hrest : sliceShape ds bs ss = ss := by
          apply ih
          · simpa using h1
          · simpa using h2
          · intro k hk
            have := hb (k + 1) (by simpa using Nat.succ_lt_succ hk)
            simpa using this
        simp [sliceShape, hmin, hrest]

/-- C7: under the length precondition and per-dimension bounds
`begin[i] + size[i] <= shape[i]`, `tfl_slice` returns a tensor of shape
`size` whose element at multi-index `j` is the input's element at
`begin + j`; violating the length precondition yields the assertion
error. -/
theorem C7_tfl_slice_correct :
    (∀ (input : Tensor) (begin_ size : List Nat),
      begin_.length = input.ndim → size.length = input.ndim →
      (∀ k, k < input.ndim →
        begin_.getD k 0 + size.getD k 0 ≤ input.shape.getD k 0) →
      ∃ out, tfl_slice input begin_ size = Except.ok out
        ∧ out.dtype = input.dtype
        ∧ out.shape = size
        ∧ ∀ j : List Nat, j.length = input.ndim →
            (∀ k, k < input.ndim → j.getD k 0 < size.getD k 0) →
            out.at j = input.at (List.zipWith (· + ·) begin_ j))
    ∧ (∀ (input : Tensor) (begin_ size : List Nat),
        ¬(begin_.length = size.length ∧ size.length = input.ndim) →
        tfl_slice input begin_ size = Except.error "AssertionError") := by
  constructor
  · intro input begin_ size h1 h2 hb
    have hcond : begin_.length = size.length ∧ size.length = input.ndim :=
      ⟨h1.trans h2.symm, h2⟩
    have hshape : sliceShape input.shape begin_ size = size := by
      apply sliceShape_eq
      · exact h1
      · exact h2
      · exact hb
    refine ⟨⟨input.dtype, sliceShape input.shape begin_ size,
      (allIdx (sliceShape input.shape begin_ size)).map
        (fun j => input.at (List.zipWith (· + ·) begin_ j))⟩, ?_, rfl, hshape, ?_⟩
    · rw [tfl_slice, if_pos hcond]
    · intro j hjlen hjb
      show Tensor.at ⟨input.dtype, sliceShape input.shape begin_ size, _⟩ j = _
      rw [hshape]
      apply at_mk_map
      · exact hjlen.trans h2.symm
      · intro k hk
        exact hjb k (by rw [← h2]; exact hk)
  · intro input begin_ size h
    rw [tfl_slice, if_neg h]

/-- Witness for C7: slicing a 2x3 tensor at `begin=[0,1]`, `size=[2,2]`
produces the expected 2x2 tensor, and the theorem applies there. -/
theorem C7_tfl_slice_correct_witness :
    tfl_slice ⟨DType.float32, [2, 3], [1, 2, 3, 4, 5, 6]⟩ [0, 1] [2, 2]
        = Except.ok ⟨DType.float32, [2, 2], [2, 3, 5, 6]⟩
    ∧ (∃ out,
        tfl_slice ⟨DType.float32, [2, 3], [1, 2, 3, 4, 5, 6]⟩ [0, 1] [2, 2]
          = Except.ok out
        ∧ out.dtype = DType.float32
        ∧ out.shape = [2, 2]
        ∧ ∀ j : List Nat, j.length = 2 →
            (∀ k, k < 2 → j.getD k 0 < [2, 2].getD k 0) →
            out.at j
              = (⟨DType.float32, [2, 3], [1, 2, 3, 4, 5, 6]⟩ : Tensor).at
                  (List.zipWith (· + ·) [0, 1] j)) :=
  ⟨rfl, C7_tfl_slice_correct.1 ⟨DType.float32, [2, 3], [1, 2, 3, 4, 5, 6]⟩
    [0, 1] [2, 2] (by decide) (by decide) (by decide)⟩

theorem except_map_ok {ε α β : Type} (f : α → β) (a : α) :
    (Except.map f (Except.ok a) : Except ε β) = Except.ok (f a) := rfl

theorem except_map_error {ε α β : Type} (f : α → β) (e : ε) :
    (Except.map f (Except.error e) : Except ε β) = Except.error e := rfl

/-- When every token that `re.match(r"\d+", ·)` accepts is also a valid
`int()` literal, the token loop succeeds and produces: the parsed value
for matched tokens, a fresh dynamic size for unmatched ones, with the
dynamic ids at least `ctr` and strictly increasing left to right (hence
pairwise distinct). -/
theorem parseShapeTokens_ok_spec :
    ∀ (toks : List (List Char)) (ctr : Nat),
      (∀ t ∈ toks, reMatchDigits t = true → (pyInt t).isSome) →
      ∃ dims, parseShapeTokens toks ctr = Except.ok dims
        ∧ dims.length = toks.length
        ∧ (∀ k, k < toks.length →
            (reMatchDigits (toks.getD k []) = true →
              dims.getD k (Dim.concrete 0)
                = Dim.concrete ((pyInt (toks.getD k [])).getD 0))
            ∧ (reMatchDigits (toks.getD k []) = false →
              ∃ id, dims.getD k (Dim.concrete 0) = Dim.dynamic id))
        ∧ (∀ k id, dims.getD k (Dim.concrete 0) = Dim.dynamic id → ctr ≤ id)
        ∧ (∀ k1 k2 id1 id2, k1 < k2 →
            dims.getD k1 (Dim.concrete 0) = Dim.dynamic id1 →
            dims.getD k2 (Dim.concrete 0) = Dim.dynamic id2 →
            id1 < id2) := by
  intro toks
  induction toks with
  | nil =>
    intro ctr h
    refine ⟨[], rfl, rfl, ?_, ?_, ?_⟩
    · intro k hk; simp at hk
    · intro k id hd; simp [List.getD] at hd
    · intro k1 k2 id1 id2 hlt h1 h2; simp [List.getD] at h1
  | cons t rest ih =>
    intro ctr h
    by_cases hm : reMatchDigits t = true
    · have hsome : (pyInt t).isSome := h t (by simp) hm
      obtain ⟨n, hn⟩ := Option.isSome_iff_exists.mp hsome
      obtain ⟨dims', hok', hlen', hpt', hlo', hmono'⟩ :=
        ih ctr (fun u hu hq => h u (by simp [hu]) hq)
      refine ⟨Dim.concrete n :: dims', ?_, by simp [hlen'], ?_, ?_, ?_⟩
      · simp only [parseShapeTokens, hm, if_true, hn]
        rw [hok']
        rfl
      · intro k hk
        cases k with
        | zero =>
          constructor
          · intro _
            simp [hn]
          · intro hfalse
            simp [hm] at hfalse
        | succ k =>
          have hk' : k < rest.length := by simpa using hk
          constructor
          · intro htrue
            simpa using (hpt' k hk').1 (by simpa using htrue)
          · intro hfalse
            simpa using (hpt' k hk').2 (by simpa using hfalse)
      · intro k id hd
        cases k with
        | zero => simp at hd
        | succ k => exact hlo' k id (by simpa using hd)
      · intro k1 k2 id1 id2 hlt h1 h2
        cases k1 with
        | zero => simp at h1
        | succ k1 =>
          cases k2 with
          | zero => omega
          | succ k2 =>
            exact hmono' k1 k2 id1 id2 (by omega) (by simpa using h1)
              (by simpa using h2)
    · have hmf : reMatchDigits t = false := by simpa using hm
      obtain ⟨dims', hok', hlen', hpt', hlo', hmono'⟩ :=
        ih (ctr + 1) (fun u hu hq => h u (by simp [hu]) hq)
      refine ⟨Dim.dynamic ctr :: dims', ?_, by simp [hlen'], ?_, ?_, ?_⟩
      · simp only [parseShapeTokens, hmf]
        rw [hok']
        rfl
      · intro k hk
        cases k with
        | zero =>
          constructor
          · intro htrue
            simp [hmf] at htrue
          · intro _
            exact ⟨ctr, by simp⟩
        | succ k =>
          have hk' : k < rest.length := by simpa using hk
          constructor
          · intro htrue
            simpa using (hpt' k hk').1 (by simpa using htrue)
          · intro hfalse
            simpa using (hpt' k hk').2 (by simpa using hfalse)
      · intro k id hd
        cases k with
        | zero =>
          simp at hd
          omega
        | succ k =>
          have := hlo' k id (by simpa using hd)
          omega
      · intro k1 k2 id1 id2 hlt h1 h2
        cases k1 with
        | zero =>
          cases k2 with
          | zero => omega
          | succ k2 =>
            have hid1 : id1 = ctr := by
              have h1' : Dim.dynamic ctr = Dim.dynamic id1 := by simpa using h1
              cases h1'
              rfl
            have := hlo' k2 id2 (by simpa using h2)
            omega
        | succ k1 =>
          cases k2 with
          | zero => omega
          | succ k2 =>
            exact hmono' k1 k2 id1 id2 (by omega) (by simpa using h1)
              (by simpa using h2)

/-- When some token matches `re.match(r"\d+", ·)` but is not a valid
`int()` literal, the token loop raises `ValueError`. -/
theorem parseShapeTokens_error :
    ∀ (toks : List (List Char)) (ctr : Nat),
      (∃ t ∈ toks, reMatchDigits t = true ∧ pyInt t = none) →
      parseShapeTokens toks ctr
        = Except.error "ValueError: invalid literal for int() with base 10" := by
  intro toks
  induction toks with
  | nil =>
    intro ctr h
    simp at h
  | cons t rest ih =>
    intro ctr h
    by_cases hm : reMatchDigits t = true
    · cases hpy : pyInt t with
      | none => simp [parseShapeTokens, hm, hpy]
      | some n =>
        have hbad : ∃ u ∈ rest, reMatchDigits u = true ∧ pyInt u = none := by
          obtain ⟨u, hu, hq, hnone⟩ := h
          rcases List.mem_cons.mp hu with rfl | hu'
          · rw [hpy] at hnone
            cases hnone
          · exact ⟨u, hu', hq, hnone⟩
        simp [parseShapeTokens, hm, hpy, ih ctr hbad, except_map_error]
    · have hmf : reMatchDigits t = false := by simpa using hm
      have hbad : ∃ u ∈ rest, reMatchDigits u = true ∧ pyInt u = none := by
        obtain ⟨u, hu, hq, hnone⟩ := h
        rcases List.mem_cons.mp hu with rfl | hu'
        · rw [hq] at hmf
          cases hmf
        · exact ⟨u, hu', hq, hnone⟩
      simp [parseShapeTokens, hmf, ih (ctr + 1) hbad, except_map_error]

/-- Splitting the joined `"?"` tokens recovers them (for one or more
dimensions; zero dimensions give the single empty token, as in
Python). -/
theorem splitOnComma_joinComma_q :
    ∀ n : Nat, splitOnComma (joinComma (List.replicate n ['?']))
      = if n = 0 then [[]] else List.replicate n ['?'] := by
  intro n
  induction n with
  | zero => rfl
  | succ m ih =>
    cases m with
    | zero => rfl
    | succ m2 =>
      have hrep : List.replicate (m2 + 2) ['?']
          = ['?'] :: List.replicate (m2 + 1) ['?'] := rfl
      rw [hrep]
      have hj : joinComma (['?'] :: List.replicate (m2 + 1) ['?'])
          = '?' :: ',' :: joinComma (List.replicate (m2 + 1) ['?']) := by
        have : List.replicate (m2 + 1) ['?']
            = ['?'] :: List.replicate m2 ['?'] := rfl
        rw [this]
        rfl
      rw [hj]
      simp only [splitOnComma, if_neg (by decide : ¬('?' = ',')),
        if_pos rfl]
      rw [ih]
      simp

/-- C4 (amended): the fake implementations are shape/dtype-only. The
reshape fake returns exactly the requested shape with the input's dtype
and never reads the input's values; the slice fake derives one output
dimension per comma-separated shape token — a token accepted by
`re.match(r"\d+", ·)` is parsed by `int()` into a concrete size (a
`ValueError` if the token is not a valid integer literal), any other
token becomes a fresh dynamic size (all dynamic ids pairwise distinct) —
and an empty shape string on an input with at least one dimension yields
`input.ndim` all-dynamic dimensions, always with the input's dtype and
without reading the input's (or `begin`'s or `size`'s) values. -/
theorem C4_fake_implementations :
    (∀ (input : Tensor) (shape : List Nat),
      (tfl_reshape_fake input shape).shape = shape.map Dim.concrete
      ∧ (tfl_reshape_fake input shape).dtype = input.dtype)
    ∧ (∀ (dt : DType) (sh shape : List Nat) (d1 d2 : List Int),
      tfl_reshape_fake ⟨dt, sh, d1⟩ shape = tfl_reshape_fake ⟨dt, sh, d2⟩ shape)
    ∧ (∀ (dt : DType) (sh : List Nat) (d1 d2 : List Int)
        (b1 s1 b2 s2 : Tensor) (str : String),
      tfl_slice_tensor_fake ⟨dt, sh, d1⟩ b1 s1 str
        = tfl_slice_tensor_fake ⟨dt, sh, d2⟩ b2 s2 str)
    ∧ (∀ (input b s : Tensor) (str : String),
      (∀ t ∈ fakeShapeTokens input str,
        reMatchDigits t = true → (pyInt t).isSome) →
      ∃ ft, tfl_slice_tensor_fake input b s str = Except.ok ft
        ∧ ft.dtype = input.dtype
        ∧ ft.shape.length = (fakeShapeTokens input str).length
        ∧ (∀ k, k < ft.shape.length →
            (reMatchDigits ((fakeShapeTokens input str).getD k []) = true →
              ft.shape.getD k (Dim.concrete 0)
                = Dim.concrete
                    ((pyInt ((fakeShapeTokens input str).getD k [])).getD 0))
            ∧ (reMatchDigits ((fakeShapeTokens input str).getD k [])
                  = false →
              ∃ id, ft.shape.getD k (Dim.concrete 0) = Dim.dynamic id))
        ∧ (∀ k1 k2 id1 id2, k1 < k2 →
            ft.shape.getD k1 (Dim.concrete 0) = Dim.dynamic id1 →
            ft.shape.getD k2 (Dim.concrete 0) = Dim.dynamic id2 →
            id1 ≠ id2))
    ∧ (∀ (input b s : Tensor) (str : String),
      (∃ t ∈ fakeShapeTokens input str,
        reMatchDigits t = true ∧ pyInt t = none) →
      tfl_slice_tensor_fake input b s str
        = Except.error "ValueError: invalid literal for int() with base 10")
    ∧ (∀ (input b s : Tensor), 1 ≤ input.ndim →
      ∃ ft, tfl_slice_tensor_fake input b s "" = Except.ok ft
        ∧ ft.dtype = input.dtype
        ∧ ft.shape.length = input.ndim
        ∧ ∀ dm ∈ ft.shape, ∃ id, dm = Dim.dynamic id) := by
  refine ⟨fun input shape => ⟨rfl, rfl⟩, fun dt sh shape d1 d2 => rfl,
    fun dt sh d1 d2 b1 s1 b2 s2 str => rfl, ?_, ?_, ?_⟩
  · intro input b s str h
    obtain ⟨dims, hok, hlen, hpt, hlo, hmono⟩ :=
      parseShapeTokens_ok_spec (fakeShapeTokens input str) 0 h
    refine ⟨⟨input.dtype, dims⟩, ?_, rfl, hlen, ?_, ?_⟩
    · show (parseShapeTokens (fakeShapeTokens input str) 0).map _ = _
      rw [hok, except_map_ok]
    · intro k hk
      exact hpt k (by rw [← hlen]; exact hk)
    · intro k1 k2 id1 id2 hlt h1 h2
      exact Nat.ne_of_lt (hmono k1 k2 id1 id2 hlt h1 h2)
  · intro input b s str h
    show (parseShapeTokens (fakeShapeTokens input str) 0).map _ = _
    rw [parseShapeTokens_error (fakeShapeTokens input str) 0 h,
      except_map_error]
  · intro input b s hnd
    have htoks : fakeShapeTokens input ""
        = List.replicate input.ndim ['?'] := by
      show splitOnComma (if ("" : String).toList = [] then _ else _) = _
      have he : ("" : String).toList = [] := rfl
      rw [if_pos he, splitOnComma_joinComma_q, if_neg (by omega)]
    have h : ∀ t ∈ fakeShapeTokens input "",
        reMatchDigits t = true → (pyInt t).isSome := by
      intro t ht htrue
      rw [htoks] at ht
      rw [List.eq_of_mem_replicate ht] at htrue
      cases htrue
    obtain ⟨dims, hok, hlen, hpt, hlo, hmono⟩ :=
      parseShapeTokens_ok_spec (fakeShapeTokens input "") 0 h
    refine ⟨⟨input.dtype, dims⟩, ?_, rfl, ?_, ?_⟩
    · show (parseShapeTokens (fakeShapeTokens input "") 0).map _ = _
      rw [hok, except_map_ok]
    · show dims.length = input.ndim
      rw [hlen, htoks, List.length_replicate]
    · intro dm hdm
      obtain ⟨k, hk, hgetk⟩ := List.getElem_of_mem hdm
      have hgd : dims.getD k (Dim.concrete 0) = dm := by
        rw [List.getD_eq_getElem?_getD, List.getElem?_eq_getElem hk, hgetk]
        rfl
      have hklen : k < (fakeShapeTokens input "").length := by
        rw [← hlen]; exact hk
      have htok : (fakeShapeTokens input "").getD k [] = ['?'] := by
        rw [htoks]
        rw [htoks, List.length_replicate] at hklen
        rw [List.getD_eq_getElem?_getD, List.getElem?_replicate,
          if_pos hklen]
        rfl
      obtain ⟨id, hid⟩ := (hpt k hklen).2 (by rw [htok]; rfl)
      exact ⟨id, by rw [← hgd, hid]⟩

/-- Counterexample to C4 as stated: on a 1-d input the non-decimal
token `"12x"` does not become a dynamic size — `int("12x")` raises
`ValueError`; and on a 2-d input the shape string `"5"` yields a 1-d
result, not one with `input.ndim` dimensions. -/
theorem C4_fake_implementations_counterexample :
    tfl_slice_tensor_fake ⟨DType.float32, [2], []⟩ ⟨DType.int32, [1], []⟩
        ⟨DType.int32, [1], []⟩ "12x"
      = Except.error "ValueError: invalid literal for int() with base 10"
    ∧ tfl_slice_tensor_fake ⟨DType.float32, [2, 3], []⟩ ⟨DType.int32, [2], []⟩
        ⟨DType.int32, [2], []⟩ "5"
      = Except.ok ⟨DType.float32, [Dim.concrete 5]⟩
    ∧ (⟨DType.float32, [2, 3], []⟩ : Tensor).ndim = 2 :=
  ⟨rfl, rfl, rfl⟩

/-- Witness for C4: the amended theorem applied to a 2-d input with
shape string `"15,?"`, whose concrete evaluation gives one concrete and
one dynamic dimension. -/
theorem C4_fake_implementations_witness :
    tfl_slice_tensor_fake ⟨DType.float32, [2, 3], []⟩ ⟨DType.int32, [2], []⟩
        ⟨DType.int32, [2], []⟩ "15,?"
      = Except.ok ⟨DType.float32, [Dim.concrete 15, Dim.dynamic 0]⟩
    ∧ (∃ ft,
        tfl_slice_tensor_fake ⟨DType.float32, [2, 3], []⟩
            ⟨DType.int32, [2], []⟩ ⟨DType.int32, [2], []⟩ "15,?"
          = Except.ok ft
        ∧ ft.dtype = DType.float32
        ∧ ft.shape.length
            = (fakeShapeTokens ⟨DType.float32, [2, 3], []⟩ "15,?").length
        ∧ (∀ k, k < ft.shape.length →
            (reMatchDigits
                ((fakeShapeTokens ⟨DType.float32, [2, 3], []⟩ "15,?").getD k [])
                = true →
              ft.shape.getD k (Dim.concrete 0)
                = Dim.concrete
                    ((pyInt ((fakeShapeTokens ⟨DType.float32, [2, 3], []⟩
                        "15,?").getD k [])).getD 0))
            ∧ (reMatchDigits
                ((fakeShapeTokens ⟨DType.float32, [2, 3], []⟩ "15,?").getD k [])
                  = false →
              ∃ id, ft.shape.getD k (Dim.concrete 0) = Dim.dynamic id))
        ∧ (∀ k1 k2 id1 id2, k1 < k2 →
            ft.shape.getD k1 (Dim.concrete 0) = Dim.dynamic id1 →
            ft.shape.getD k2 (Dim.concrete 0) = Dim.dynamic id2 →
            id1 ≠ id2)) :=
  ⟨rfl, C4_fake_implementations.2.2.2.1 ⟨DType.float32, [2, 3], []⟩
    ⟨DType.int32, [2], []⟩ ⟨DType.int32, [2], []⟩ "15,?" (by decide)⟩
